import Mathlib

/-!
Verification of the language-pack pipeline in
`kalite/i18n/management/commands/update_language_packs.py`.

The per-locale metadata records are Python dictionaries loaded from JSON;
we model them as partial maps from string keys to a small universe of
Python values (`None`, integers, strings), and translate the functions
`increment_crowdin_version`, the per-locale body of `generate_metadata`,
and the control flow of `download_latest_translations` into Lean.
-/

namespace UpdateLanguagePacks

/-- A Python value as it appears in the metadata dictionaries: `None`,
an integer, or a string. -/
inductive Value where
  | none_ : Value
  | int : Int → Value
  | str : String → Value
deriving DecidableEq

/-- A Python dictionary with string keys: a partial map.  `Option.none`
means the key is absent. -/
def Meta : Type := String → Option Value

/-- Build a dictionary from an association list (first binding wins, and
the lists we build have distinct keys). -/
def metaOfList (l : List (String × Value)) : Meta := fun k => l.lookup k

/-- Python `d.get(k)`: returns `None` when the key is absent. -/
def dictGet (m : Meta) (k : String) : Value := (m k).getD Value.none_

/-- Python truthiness on our value universe: `None`, `0` and `""` are
falsy, everything else truthy. -/
def pyFalsy : Value → Bool
  | Value.none_ => true
  | Value.int n => n == 0
  | Value.str s => s == ""

/-- Python `==` on our value universe: `None == None` is `True`, numbers
and strings compare within their own type, and cross-type comparisons
(including against `None`) are `False`. -/
def pyEqV : Value → Value → Bool
  | Value.none_, Value.none_ => true
  | Value.int a, Value.int b => a == b
  | Value.str a, Value.str b => a == b
  | _, _ => false

/-- The Python exceptions the translated fragment can raise. -/
inductive PyError where
  | attributeError : PyError
  | typeError : PyError
  | valueError : PyError
  | httpError : PyError
  | badZipError : PyError
  | extractError : PyError
  | copyError : PyError
deriving DecidableEq

/-- Python `v + 1`: defined on integers, a `TypeError` on `None` or a
string. -/
def pyAdd1 : Value → Except PyError Value
  | Value.int n => Except.ok (Value.int (n + 1))
  | _ => Except.error PyError.typeError

/-- Python `int(v)`: the identity on integers, parses integer strings,
raises `ValueError` on other strings and `TypeError` on `None`. -/
def pyInt : Value → Except PyError Value
  | Value.int n => Except.ok (Value.int n)
  | Value.str s =>
      match s.toInt? with
      | some n => Except.ok (Value.int n)
      | none => Except.error PyError.valueError
  | Value.none_ => Except.error PyError.typeError

/-- `increment_crowdin_version(local_meta, crowdin_meta)` from the source.
`vdiff` stands for the external helper `utils.general.version_diff`
(absent from the fragment; the spec treats it as a pluggable three-way
comparator, so it is a parameter here), and `VERSION` for the constant
`version.VERSION`.  The translation follows the source line by line:

  total_translated = local_meta.get("total_translated")
  if not total_translated or version_diff(local_meta.get("software_version"), version.VERSION) < 0:
      crowdin_version = 1
  elif total_translated == crowdin_meta.get("approved"):
      crowdin_version = local_meta.get("crowdin_version") or 1
  else:
      crowdin_version = local_meta.get("crowdin_version") + 1
-/
def increment_crowdin_version (vdiff : Value → String → Int) (VERSION : String)
    (local_meta crowdin_meta : Meta) : Except PyError Value :=
  let total_translated := dictGet local_meta "total_translated"
  if pyFalsy total_translated
      || decide (vdiff (dictGet local_meta "software_version") VERSION < 0) then
    Except.ok (Value.int 1)
  else if pyEqV total_translated (dictGet crowdin_meta "approved") then
    Except.ok (if pyFalsy (dictGet local_meta "crowdin_version") then Value.int 1
               else dictGet local_meta "crowdin_version")
  else
    pyAdd1 (dictGet local_meta "crowdin_version")

/-- Modelled from the spec: `version_diff` is external to the fragment and
the spec says to treat it as a pluggable three-way comparator returning
negative/zero/positive.  This instance is the comparator for two equal
software versions: it always returns `0` (no regression). -/
def vdiffEq : Value → String → Int := fun _ _ => 0

example :
    increment_crowdin_version vdiffEq "0.10.0"
      (metaOfList [("total_translated", Value.int 80), ("crowdin_version", Value.int 3),
                   ("software_version", Value.str "0.10.0")])
      (metaOfList [("approved", Value.int 80)]) = Except.ok (Value.int 3) := by rfl

example :
    increment_crowdin_version vdiffEq "0.10.0"
      (metaOfList [("total_translated", Value.int 80), ("crowdin_version", Value.int 3),
                   ("software_version", Value.str "0.10.0")])
      (metaOfList [("approved", Value.int 95)]) = Except.ok (Value.int 4) := by rfl

example :
    increment_crowdin_version vdiffEq "0.10.0"
      (metaOfList [("crowdin_version", Value.int 5),
                   ("software_version", Value.str "0.10.0")])
      (metaOfList [("approved", Value.int 95)]) = Except.ok (Value.int 1) := by rfl

/-! ## The per-locale body of `generate_metadata` -/

/-- The keys of the `updated_metadata` dictionary literal in
`generate_metadata`. -/
def updatedKeys : List String :=
  ["percent_translated", "phrases", "approved_translations",
   "software_version", "crowdin_version", "subtitle_count"]

/-- The `updated_metadata` dictionary literal of `generate_metadata`,
with each value already computed. -/
def updated_metadata (percent phrases approved : Value) (VERSION : String)
    (crowdin_version : Value) (srt_count : Int) : List (String × Value) :=
  [("percent_translated", percent),
   ("phrases", phrases),
   ("approved_translations", approved),
   ("software_version", Value.str VERSION),
   ("crowdin_version", crowdin_version),
   ("subtitle_count", Value.int srt_count)]

/-- Python `local_meta.update(updated_metadata)`: keys present in the
update overwrite the base dictionary, all other keys keep their value. -/
def dictUpdate (m : Meta) (u : List (String × Value)) : Meta :=
  fun k =>
    match u.lookup k with
    | some v => some v
    | none => m k

/-- The `except:` branch of the metadata load in `generate_metadata`:
`local_meta = {"code": crowdin_meta.get("code"), "name": crowdin_meta.get("name")}`.
When `crowdin_meta` is Python `None` (no matching remote status entry),
the attribute access `.get` raises `AttributeError`. -/
def synthLocalMeta (crowdin_meta : Option Meta) : Except PyError Meta :=
  match crowdin_meta with
  | none => Except.error PyError.attributeError
  | some cm =>
      Except.ok (metaOfList [("code", dictGet cm "code"), ("name", dictGet cm "name")])

/-- The `try`/`except` around the metadata load: a successful JSON load
(`loaded = some m`) is used as is, any failure falls back to the
synthesized minimal record. -/
def loadLocalMeta (crowdin_meta : Option Meta) (loaded : Option Meta) :
    Except PyError Meta :=
  match loaded with
  | some m => Except.ok m
  | none => synthLocalMeta crowdin_meta

/-- The loop of `generate_metadata` resolving the remote status entry:
`next((meta for meta in crowdin_meta_dict if meta["code"] == converted), None)`.
`converted` is the locale code already put through
`convert_language_code_format` (external to the fragment). -/
def crowdinLookup (crowdin_meta_dict : List Meta) (converted : String) : Option Meta :=
  crowdin_meta_dict.find? (fun m => pyEqV (dictGet m "code") (Value.str converted))

/-- One iteration of the locale loop in `generate_metadata`, from the
remote-status resolution result to the merged record that is persisted:

  try: local_meta = json.loads(...)
  except: local_meta = {"code": crowdin_meta.get("code"), "name": crowdin_meta.get("name")}
  ...
  updated_metadata = {
      "percent_translated": int(crowdin_meta.get("approved_progress")),
      "phrases": int(crowdin_meta.get("phrases")),
      "approved_translations": int(crowdin_meta.get("approved")),
      "software_version": version.VERSION,
      "crowdin_version": increment_crowdin_version(local_meta, crowdin_meta),
      "subtitle_count": srt_count,
  }
  local_meta.update(updated_metadata)

`crowdin_meta = none` models Python `None` (no matching remote entry);
every `.get` on it raises `AttributeError`. -/
def processLocale (vdiff : Value → String → Int) (VERSION : String)
    (crowdin_meta : Option Meta) (loaded : Option Meta) (srt_count : Int) :
    Except PyError Meta :=
  match loadLocalMeta crowdin_meta loaded with
  | Except.error e => Except.error e
  | Except.ok local_meta =>
    match crowdin_meta with
    | none => Except.error PyError.attributeError
    | some cm =>
      match pyInt (dictGet cm "approved_progress") with
      | Except.error e => Except.error e
      | Except.ok percent =>
        match pyInt (dictGet cm "phrases") with
        | Except.error e => Except.error e
        | Except.ok phrases =>
          match pyInt (dictGet cm "approved") with
          | Except.error e => Except.error e
          | Except.ok approved =>
            match increment_crowdin_version vdiff VERSION local_meta cm with
            | Except.error e => Except.error e
            | Except.ok cv =>
              Except.ok (dictUpdate local_meta
                (updated_metadata percent phrases approved VERSION cv srt_count))

/-! ## The control flow of `download_latest_translations` -/

/-- The observable actions of `download_latest_translations`, in program
order. -/
inductive FetchStep where
  | buildRequest : FetchStep
  | logBuildError : FetchStep
  | downloadRequest : FetchStep
  | logError : FetchStep
  | logSuccess : FetchStep
  | openZip : FetchStep
  | extractAll : FetchStep
  | copyPo : FetchStep
  | removeTmp : FetchStep
deriving DecidableEq

/-- Result of one invocation of `download_latest_translations`: the steps
it executed, the exception (if any) that escaped, and whether the scratch
directory `locale/tmp` exists afterwards (assuming it did not exist
before the call). -/
structure FetchOutcome where
  steps : List FetchStep
  error : Option PyError
  tmpExists : Bool
deriving DecidableEq

/-- `download_latest_translations`, as a function of the environment:
the HTTP status of the `export` request (`build_translations`), the HTTP
status of the `download` request, whether the downloaded bytes are a
valid zip archive, and whether extraction and the po-file copy succeed.
Mirrors the source control flow: both `raise_for_status` calls are
wrapped in `try/except` that only logs, after which the function
unconditionally opens the content as a zip, extracts into the scratch
directory, copies the po files, and removes the scratch directory —
the removal happens only on the fall-through path, there is no
`try/finally`. -/
def download_latest_translations (buildStatus dlStatus : Nat)
    (contentIsZip extractOk copyOk : Bool) : FetchOutcome :=
  let pre :=
    [FetchStep.buildRequest]
      ++ (if 400 ≤ buildStatus then [FetchStep.logBuildError] else [])
      ++ [FetchStep.downloadRequest]
      ++ (if 400 ≤ dlStatus then [FetchStep.logError] else [FetchStep.logSuccess])
  if contentIsZip = false then
    { steps := pre ++ [FetchStep.openZip],
      error := some PyError.badZipError, tmpExists := false }
  else if extractOk = false then
    { steps := pre ++ [FetchStep.openZip, FetchStep.extractAll],
      error := some PyError.extractError, tmpExists := true }
  else if copyOk = false then
    { steps := pre ++ [FetchStep.openZip, FetchStep.extractAll, FetchStep.copyPo],
      error := some PyError.copyError, tmpExists := true }
  else
    { steps := pre ++ [FetchStep.openZip, FetchStep.extractAll, FetchStep.copyPo,
                       FetchStep.removeTmp],
      error := none, tmpExists := false }

/-- Modelled from the spec: a comparator instance for the scenario where
the previously recorded software version is older than the current one
(`version_diff` negative, i.e. the stored version regresses relative to
the current release). -/
def vdiffOlder : Value → String → Int := fun _ _ => -1

/-! ## Theorems about `increment_crowdin_version` -/

/-- C8: `increment_crowdin_version` returns `1` whenever the previous
record has no recorded `total_translated` count (in particular on a first
run, where the synthesized record has only `code` and `name`), or the
previous record's software version is older than the current one
(`version_diff < 0`); this holds for every remote status. -/
theorem increment_resets_to_one_on_missing_total_or_older_software
    (vdiff : Value → String → Int) (VERSION : String) (local_meta crowdin_meta : Meta)
    (h : dictGet local_meta "total_translated" = Value.none_
        ∨ vdiff (dictGet local_meta "software_version") VERSION < 0) :
    increment_crowdin_version vdiff VERSION local_meta crowdin_meta
      = Except.ok (Value.int 1) := by
  unfold increment_crowdin_version
  rcases h with h | h
  · rw [h]
    simp [pyFalsy]
  · simp [h]

/-- Witness for C8: a previous record with a stored `crowdin_version` of
`5` but no `total_translated` key yields version `1`. -/
theorem increment_resets_to_one_on_missing_total_or_older_software_witness :
    increment_crowdin_version vdiffEq "0.10.0"
      (metaOfList [("crowdin_version", Value.int 5),
                   ("software_version", Value.str "0.10.0")])
      (metaOfList [("approved", Value.int 95)]) = Except.ok (Value.int 1) :=
  increment_resets_to_one_on_missing_total_or_older_software vdiffEq "0.10.0"
    (metaOfList [("crowdin_version", Value.int 5),
                 ("software_version", Value.str "0.10.0")])
    (metaOfList [("approved", Value.int 95)])
    (Or.inl (by rfl))

/-- C10: a previous record whose recorded `total_translated` is the
integer `0` is treated exactly like a record with no recorded count:
`increment_crowdin_version` returns `1` regardless of the stored
`crowdin_version`, the software version, the comparator, or the current
approved count (Python `not 0` is `True`). -/
theorem increment_resets_to_one_on_zero_total
    (vdiff : Value → String → Int) (VERSION : String) (local_meta crowdin_meta : Meta)
    (h : dictGet local_meta "total_translated" = Value.int 0) :
    increment_crowdin_version vdiff VERSION local_meta crowdin_meta
      = Except.ok (Value.int 1) := by
  unfold increment_crowdin_version
  rw [h]
  simp [pyFalsy]

/-- Witness for C10: `total_translated = 0` with stored `crowdin_version
= 7`, an up-to-date software version and a changed approved count still
yields `1`. -/
theorem increment_resets_to_one_on_zero_total_witness :
    increment_crowdin_version vdiffEq "0.10.0"
      (metaOfList [("total_translated", Value.int 0),
                   ("crowdin_version", Value.int 7),
                   ("software_version", Value.str "0.10.0")])
      (metaOfList [("approved", Value.int 95)]) = Except.ok (Value.int 1) :=
  increment_resets_to_one_on_zero_total vdiffEq "0.10.0"
    (metaOfList [("total_translated", Value.int 0),
                 ("crowdin_version", Value.int 7),
                 ("software_version", Value.str "0.10.0")])
    (metaOfList [("approved", Value.int 95)])
    (by rfl)

/-- Counterexample to C4 as stated: a previous record whose recorded
total-translated count (`0`) equals the current approved count (`0`) and
whose stored `crowdin_version` is `3`; the claim demands the result `3`,
but the code takes the reset branch (Python `not 0` is `True`) and
returns `1`, even though the comparator reports no regression. -/
theorem increment_not_idempotent_at_zero_total_counterexample :
    pyEqV (dictGet (metaOfList [("total_translated", Value.int 0),
                                ("crowdin_version", Value.int 3),
                                ("software_version", Value.str "0.10.0")]) "total_translated")
          (dictGet (metaOfList [("approved", Value.int 0)]) "approved") = true
    ∧ dictGet (metaOfList [("total_translated", Value.int 0),
                           ("crowdin_version", Value.int 3),
                           ("software_version", Value.str "0.10.0")]) "crowdin_version"
        = Value.int 3
    ∧ (0 : Int) ≤ vdiffEq (dictGet (metaOfList [("total_translated", Value.int 0),
                                ("crowdin_version", Value.int 3),
                                ("software_version", Value.str "0.10.0")]) "software_version")
                          "0.10.0"
    ∧ increment_crowdin_version vdiffEq "0.10.0"
        (metaOfList [("total_translated", Value.int 0),
                     ("crowdin_version", Value.int 3),
                     ("software_version", Value.str "0.10.0")])
        (metaOfList [("approved", Value.int 0)]) = Except.ok (Value.int 1)
    ∧ Value.int 1 ≠ Value.int 3 :=
  ⟨by rfl, by rfl, by decide, by rfl, by decide⟩

/-- C4 (amended): when the previous record's `total_translated` is
present and truthy, the software version has not regressed, and the count
equals the current approved count, `increment_crowdin_version` succeeds
and returns the stored `crowdin_version` when that is a nonzero integer,
and `1` when the key is absent or stored as `0`. -/
theorem increment_idempotent_when_no_progress
    (vdiff : Value → String → Int) (VERSION : String) (local_meta crowdin_meta : Meta)
    (h1 : pyFalsy (dictGet local_meta "total_translated") = false)
    (h2 : 0 ≤ vdiff (dictGet local_meta "software_version") VERSION)
    (h3 : pyEqV (dictGet local_meta "total_translated")
          (dictGet crowdin_meta "approved") = true) :
    ∃ v, increment_crowdin_version vdiff VERSION local_meta crowdin_meta = Except.ok v
      ∧ (local_meta "crowdin_version" = none → v = Value.int 1)
      ∧ (dictGet local_meta "crowdin_version" = Value.int 0 → v = Value.int 1)
      ∧ ∀ n : Int, n ≠ 0 → dictGet local_meta "crowdin_version" = Value.int n →
          v = Value.int n := by
  have hlt : ¬ vdiff (dictGet local_meta "software_version") VERSION < 0 := not_lt.mpr h2
  refine ⟨if pyFalsy (dictGet local_meta "crowdin_version") then Value.int 1
          else dictGet local_meta "crowdin_version", ?_, ?_, ?_, ?_⟩
  · unfold increment_crowdin_version
    simp [h1, hlt, h3]
  · intro hnone
    have : dictGet local_meta "crowdin_version" = Value.none_ := by
      unfold dictGet
      rw [hnone]
      rfl
    rw [this]
    rfl
  · intro h0
    rw [h0]
    rfl
  · intro n hn hcv
    rw [hcv]
    simp [pyFalsy, hn]

/-- Witness for C4 (amended): `total_translated = 80`, approved `80`,
stored `crowdin_version = 3`, no regression: the returned value is `3`. -/
theorem increment_idempotent_when_no_progress_witness :
    ∃ v, increment_crowdin_version vdiffEq "0.10.0"
          (metaOfList [("total_translated", Value.int 80),
                       ("crowdin_version", Value.int 3),
                       ("software_version", Value.str "0.10.0")])
          (metaOfList [("approved", Value.int 80)]) = Except.ok v
      ∧ ((metaOfList [("total_translated", Value.int 80),
                      ("crowdin_version", Value.int 3),
                      ("software_version", Value.str "0.10.0")] : Meta) "crowdin_version" = none
          → v = Value.int 1)
      ∧ (dictGet (metaOfList [("total_translated", Value.int 80),
                              ("crowdin_version", Value.int 3),
                              ("software_version", Value.str "0.10.0")]) "crowdin_version"
            = Value.int 0 → v = Value.int 1)
      ∧ ∀ n : Int, n ≠ 0 →
          dictGet (metaOfList [("total_translated", Value.int 80),
                               ("crowdin_version", Value.int 3),
                               ("software_version", Value.str "0.10.0")]) "crowdin_version"
            = Value.int n → v = Value.int n :=
  increment_idempotent_when_no_progress vdiffEq "0.10.0"
    (metaOfList [("total_translated", Value.int 80),
                 ("crowdin_version", Value.int 3),
                 ("software_version", Value.str "0.10.0")])
    (metaOfList [("approved", Value.int 80)])
    (by rfl) (by decide) (by rfl)

/-- Counterexample to C5 as stated: a previous record with a recorded
total-translated count of `0` that differs from the current approved
count `5`, stored `crowdin_version = 3`, and a comparator reporting no
regression; the claim demands `3 + 1 = 4`, but the reset branch fires on
the falsy count and the code returns `1`. -/
theorem increment_no_strict_increment_at_zero_total_counterexample :
    dictGet (metaOfList [("total_translated", Value.int 0),
                         ("crowdin_version", Value.int 3),
                         ("software_version", Value.str "1.0")]) "total_translated"
        = Value.int 0
    ∧ pyEqV (dictGet (metaOfList [("total_translated", Value.int 0),
                                  ("crowdin_version", Value.int 3),
                                  ("software_version", Value.str "1.0")]) "total_translated")
            (dictGet (metaOfList [("approved", Value.int 5)]) "approved") = false
    ∧ (0 : Int) ≤ vdiffEq (dictGet (metaOfList [("total_translated", Value.int 0),
                                  ("crowdin_version", Value.int 3),
                                  ("software_version", Value.str "1.0")]) "software_version")
                          "1.0"
    ∧ increment_crowdin_version vdiffEq "1.0"
        (metaOfList [("total_translated", Value.int 0),
                     ("crowdin_version", Value.int 3),
                     ("software_version", Value.str "1.0")])
        (metaOfList [("approved", Value.int 5)]) = Except.ok (Value.int 1)
    ∧ Value.int 1 ≠ Value.int 4 :=
  ⟨by rfl, by rfl, by decide, by rfl, by decide⟩

/-- C5 (amended): when the previous record's `total_translated` is
present and truthy (in particular, a nonzero recorded count), differs
from the current approved count, the software version has not regressed,
and the stored `crowdin_version` is an integer `n`, the function returns
exactly `n + 1`. -/
theorem increment_strictly_increments_on_progress
    (vdiff : Value → String → Int) (VERSION : String) (local_meta crowdin_meta : Meta)
    (n : Int)
    (h1 : pyFalsy (dictGet local_meta "total_translated") = false)
    (h2 : 0 ≤ vdiff (dictGet local_meta "software_version") VERSION)
    (h3 : pyEqV (dictGet local_meta "total_translated")
          (dictGet crowdin_meta "approved") = false)
    (h4 : dictGet local_meta "crowdin_version" = Value.int n) :
    increment_crowdin_version vdiff VERSION local_meta crowdin_meta
      = Except.ok (Value.int (n + 1)) := by
  have hlt : ¬ vdiff (dictGet local_meta "software_version") VERSION < 0 := not_lt.mpr h2
  unfold increment_crowdin_version
  simp [h1, hlt, h3, h4, pyAdd1]

/-- Witness for C5 (amended): `total_translated = 80`, approved `95`,
stored `crowdin_version = 3`, no regression: the result is `4`. -/
theorem increment_strictly_increments_on_progress_witness :
    increment_crowdin_version vdiffEq "0.10.0"
      (metaOfList [("total_translated", Value.int 80),
                   ("crowdin_version", Value.int 3),
                   ("software_version", Value.str "0.10.0")])
      (metaOfList [("approved", Value.int 95)]) = Except.ok (Value.int (3 + 1)) :=
  increment_strictly_increments_on_progress vdiffEq "0.10.0"
    (metaOfList [("total_translated", Value.int 80),
                 ("crowdin_version", Value.int 3),
                 ("software_version", Value.str "0.10.0")])
    (metaOfList [("approved", Value.int 95)])
    3 (by rfl) (by decide) (by rfl) (by rfl)

/-- Counterexample to C3 as stated: consecutive records where the
software version did not regress (comparator returns `0`) but the
previous record stores `crowdin_version = 5` and no `total_translated`
count; the next computed version is `1 < 5`, so the sequence is not
non-decreasing even though the software version did not regress. -/
theorem crowdin_version_not_monotonic_counterexample :
    (0 : Int) ≤ vdiffEq (dictGet (metaOfList [("crowdin_version", Value.int 5),
                                  ("software_version", Value.str "0.10.0")]) "software_version")
                        "0.10.0"
    ∧ dictGet (metaOfList [("crowdin_version", Value.int 5),
                           ("software_version", Value.str "0.10.0")]) "crowdin_version"
        = Value.int 5
    ∧ increment_crowdin_version vdiffEq "0.10.0"
        (metaOfList [("crowdin_version", Value.int 5),
                     ("software_version", Value.str "0.10.0")])
        (metaOfList [("approved", Value.int 95)]) = Except.ok (Value.int 1)
    ∧ ¬ (5 : Int) ≤ 1 :=
  ⟨by decide, by rfl, by rfl, by decide⟩

/-- C3 (amended): between consecutive records, the computed
`crowdin_version` is greater than or equal to the stored one, provided
the software version did not regress AND the previous record has a
present, truthy `total_translated` count and an integer
`crowdin_version`; when `total_translated` is absent or zero, or the
software version regressed, the version instead resets to `1`. -/
theorem crowdin_version_monotone_with_truthy_total
    (vdiff : Value → String → Int) (VERSION : String) (local_meta crowdin_meta : Meta)
    (n : Int)
    (h1 : pyFalsy (dictGet local_meta "total_translated") = false)
    (h2 : 0 ≤ vdiff (dictGet local_meta "software_version") VERSION)
    (h3 : dictGet local_meta "crowdin_version" = Value.int n) :
    ∃ m : Int, increment_crowdin_version vdiff VERSION local_meta crowdin_meta
        = Except.ok (Value.int m) ∧ n ≤ m := by
  have hlt : ¬ vdiff (dictGet local_meta "software_version") VERSION < 0 := not_lt.mpr h2
  unfold increment_crowdin_version
  by_cases heq : pyEqV (dictGet local_meta "total_translated")
      (dictGet crowdin_meta "approved") = true
  · by_cases hz : n = 0
    · refine ⟨1, ?_, by omega⟩
      subst hz
      simp [h1, hlt, heq, h3, pyFalsy]
    · refine ⟨n, ?_, le_refl n⟩
      have hfn : pyFalsy (Value.int n) = false := by simp [pyFalsy, hz]
      simp [h1, hlt, heq, h3, hfn]
  · refine ⟨n + 1, ?_, by omega⟩
    rw [Bool.not_eq_true] at heq
    simp [h1, hlt, heq, h3, pyAdd1]

/-- Witness for C3 (amended): from a record with `total_translated = 80`
and `crowdin_version = 3`, with no regression, the next version is at
least `3`. -/
theorem crowdin_version_monotone_with_truthy_total_witness :
    ∃ m : Int, increment_crowdin_version vdiffEq "0.10.0"
        (metaOfList [("total_translated", Value.int 80),
                     ("crowdin_version", Value.int 3),
                     ("software_version", Value.str "0.10.0")])
        (metaOfList [("approved", Value.int 95)]) = Except.ok (Value.int m)
      ∧ (3 : Int) ≤ m :=
  crowdin_version_monotone_with_truthy_total vdiffEq "0.10.0"
    (metaOfList [("total_translated", Value.int 80),
                 ("crowdin_version", Value.int 3),
                 ("software_version", Value.str "0.10.0")])
    (metaOfList [("approved", Value.int 95)])
    3 (by rfl) (by decide) (by rfl)

/-! ## Theorems about the `generate_metadata` merge -/

/-- Any successful run of the per-locale body produces exactly the merge
of the loaded (or synthesized) prior record with the six-key
`updated_metadata` dictionary. -/
theorem processLocale_ok_shape (vdiff : Value → String → Int) (VERSION : String)
    (crowdin_meta : Option Meta) (loaded : Option Meta) (srt_count : Int) (out : Meta)
    (h : processLocale vdiff VERSION crowdin_meta loaded srt_count = Except.ok out) :
    ∃ lm percent phrases approved cv,
      loadLocalMeta crowdin_meta loaded = Except.ok lm
      ∧ out = dictUpdate lm (updated_metadata percent phrases approved VERSION cv srt_count) := by
  unfold processLocale at h
  split at h
  · cases h
  next lm h1 =>
    split at h
    · cases h
    next cm =>
      split at h
      · cases h
      next percent h2 =>
        split at h
        · cases h
        next phrases h3 =>
          split at h
          · cases h
          next approved h4 =>
            split at h
            · cases h
            next cv h5 =>
              cases h
              exact ⟨lm, percent, phrases, approved, cv, h1, rfl⟩

/-- A key outside the six updated keys is not bound by the
`updated_metadata` dictionary literal. -/
theorem updated_metadata_lookup_eq_none (percent phrases approved : Value)
    (VERSION : String) (cv : Value) (srt_count : Int) (k : String)
    (hk : k ∉ updatedKeys) :
    (updated_metadata percent phrases approved VERSION cv srt_count).lookup k = none := by
  simp only [updatedKeys, List.mem_cons, List.not_mem_nil, or_false, not_or] at hk
  obtain ⟨h1, h2, h3, h4, h5, h6⟩ := hk
  have b1 : (k == "percent_translated") = false := beq_eq_false_iff_ne.mpr h1
  have b2 : (k == "phrases") = false := beq_eq_false_iff_ne.mpr h2
  have b3 : (k == "approved_translations") = false := beq_eq_false_iff_ne.mpr h3
  have b4 : (k == "software_version") = false := beq_eq_false_iff_ne.mpr h4
  have b5 : (k == "crowdin_version") = false := beq_eq_false_iff_ne.mpr h5
  have b6 : (k == "subtitle_count") = false := beq_eq_false_iff_ne.mpr h6
  simp [updated_metadata, List.lookup, b1, b2, b3, b4, b5, b6]

/-- C9: on every successful per-locale merge over a loaded prior record,
each field outside the six updated keys keeps its prior value in the
merged output record. -/
theorem generate_metadata_preserves_unrelated_fields
    (vdiff : Value → String → Int) (VERSION : String) (crowdin_meta : Option Meta)
    (m : Meta) (srt_count : Int) (out : Meta) (k : String)
    (h : processLocale vdiff VERSION crowdin_meta (some m) srt_count = Except.ok out)
    (hk : k ∉ updatedKeys) :
    out k = m k := by
  obtain ⟨lm, percent, phrases, approved, cv, hload, hout⟩ :=
    processLocale_ok_shape vdiff VERSION crowdin_meta (some m) srt_count out h
  have hlm : lm = m := by
    have h0 : loadLocalMeta crowdin_meta (some m) = Except.ok m := rfl
    rw [h0] at hload
    exact (Except.ok.inj hload).symm
  subst hlm
  rw [hout]
  unfold dictUpdate
  rw [updated_metadata_lookup_eq_none percent phrases approved VERSION cv srt_count k hk]

/-- Remote status entry used by the concrete witnesses: the `es` locale
with 100 phrases, 80 approved. -/
def cmEs : Meta :=
  metaOfList [("code", Value.str "es"), ("name", Value.str "Spanish"),
              ("phrases", Value.int 100), ("approved", Value.int 80),
              ("approved_progress", Value.int 80)]

/-- Prior local record used by the concrete witnesses; it carries an
extra field `custom_field` that is not among the updated keys. -/
def lmEs : Meta :=
  metaOfList [("total_translated", Value.int 80), ("crowdin_version", Value.int 3),
              ("software_version", Value.str "0.10.0"),
              ("custom_field", Value.str "keep")]

/-- The merged record the per-locale body computes from `lmEs` and
`cmEs` at software version `0.10.0` with 4 subtitles. -/
def outEs : Meta :=
  dictUpdate lmEs
    (updated_metadata (Value.int 80) (Value.int 100) (Value.int 80) "0.10.0"
      (Value.int 3) 4)

/-- Witness for C9: the merge of `lmEs` with the `es` remote entry keeps
the unrelated field `custom_field` at its prior value. -/
theorem generate_metadata_preserves_unrelated_fields_witness :
    outEs "custom_field" = lmEs "custom_field" :=
  generate_metadata_preserves_unrelated_fields vdiffEq "0.10.0" (some cmEs) lmEs 4 outEs
    "custom_field" (by rfl) (by decide)

/-- C2: the `updated_metadata` dictionary binds exactly the six keys
`percent_translated`, `phrases`, `approved_translations`,
`software_version`, `crowdin_version`, `subtitle_count`;
`total_translated` is not among them; and consequently on every
successful per-locale run the persisted record's `total_translated`
entry is exactly the loaded prior record's entry (absent when no prior
record loaded, since the synthesized record has only `code` and
`name`). -/
theorem generate_metadata_updates_exactly_six_keys :
    (∀ (percent phrases approved : Value) (VERSION : String) (cv : Value) (srt_count : Int),
        (updated_metadata percent phrases approved VERSION cv srt_count).map Prod.fst
          = updatedKeys)
    ∧ "total_translated" ∉ updatedKeys
    ∧ ∀ (vdiff : Value → String → Int) (VERSION : String)
        (crowdin_meta loaded : Option Meta) (srt_count : Int) (out : Meta),
        processLocale vdiff VERSION crowdin_meta loaded srt_count = Except.ok out →
        out "total_translated" = Option.bind loaded (fun m => m "total_translated") := by
  refine ⟨fun _ _ _ _ _ _ => rfl, by decide, ?_⟩
  intro vdiff VERSION crowdin_meta loaded srt_count out h
  obtain ⟨lm, percent, phrases, approved, cv, hload, hout⟩ :=
    processLocale_ok_shape vdiff VERSION crowdin_meta loaded srt_count out h
  have hupd : out "total_translated" = lm "total_translated" := by
    rw [hout]; rfl
  rw [hupd]
  cases loaded with
  | some m =>
    have hlm : lm = m := by
      have h0 : loadLocalMeta crowdin_meta (some m) = Except.ok m := rfl
      rw [h0] at hload
      exact (Except.ok.inj hload).symm
    rw [hlm]
    rfl
  | none =>
    cases hcm : crowdin_meta with
    | none =>
      rw [hcm] at hload
      cases hload
    | some cm =>
      rw [hcm] at hload
      have h0 : loadLocalMeta (some cm) none
          = Except.ok (metaOfList [("code", dictGet cm "code"), ("name", dictGet cm "name")]) :=
        rfl
      rw [h0] at hload
      have hlm : lm = metaOfList [("code", dictGet cm "code"), ("name", dictGet cm "name")] :=
        (Except.ok.inj hload).symm
      rw [hlm]
      rfl

/-- Witness for C2: on the concrete `es` run the merged record's
`total_translated` entry equals the prior record's entry. -/
theorem generate_metadata_updates_exactly_six_keys_witness :
    outEs "total_translated" = Option.bind (some lmEs) (fun m => m "total_translated") :=
  generate_metadata_updates_exactly_six_keys.2.2 vdiffEq "0.10.0" (some cmEs) (some lmEs)
    4 outEs (by rfl)

/-- C7: when the remote status list has no entry whose `code` equals the
locale's converted code, the per-locale body of `generate_metadata`
raises `AttributeError` (Python `None.get`), whether or not a prior
local record loads. -/
theorem generate_metadata_unmatched_locale_attribute_failure
    (vdiff : Value → String → Int) (VERSION : String)
    (crowdin_meta_dict : List Meta) (converted : String)
    (loaded : Option Meta) (srt_count : Int)
    (h : crowdinLookup crowdin_meta_dict converted = none) :
    processLocale vdiff VERSION (crowdinLookup crowdin_meta_dict converted) loaded srt_count
      = Except.error PyError.attributeError := by
  rw [h]
  cases loaded <;> rfl

/-- Witness for C7: the empty remote status list matches no locale, and
the merge for `es` fails with `AttributeError`. -/
theorem generate_metadata_unmatched_locale_attribute_failure_witness :
    processLocale vdiffEq "0.10.0" (crowdinLookup [] "es") none 4
      = Except.error PyError.attributeError :=
  generate_metadata_unmatched_locale_attribute_failure vdiffEq "0.10.0" [] "es" none 4
    (by rfl)

/-! ## Theorems about `download_latest_translations` -/

/-- Counterexample to C1 as stated: a download returning HTTP status 500
(a server error) whose body nevertheless opens as a zip archive.  The
claim demands that the stage abort with a fetch error and that no
unpack/copy step run, but the code catches the `raise_for_status`
exception, merely logs it, and executes the extraction and the copy; the
invocation finishes with no error at all. -/
theorem fetch_error_status_not_fatal_counterexample :
    400 ≤ 500
    ∧ (download_latest_translations 200 500 true true true).error = none
    ∧ FetchStep.extractAll ∈ (download_latest_translations 200 500 true true true).steps
    ∧ FetchStep.copyPo ∈ (download_latest_translations 200 500 true true true).steps := by
  decide

/-- C1 (amended): on every download whose HTTP status is a client or
server error, the error is logged and the stage still proceeds to open
the response body as a zip archive; the HTTP error itself never escapes
the stage (any failure that does escape comes from the later zip,
extraction or copy steps). -/
theorem fetch_error_status_logged_then_unzip_attempted
    (buildStatus dlStatus : Nat) (contentIsZip extractOk copyOk : Bool)
    (h : 400 ≤ dlStatus) :
    FetchStep.logError
        ∈ (download_latest_translations buildStatus dlStatus contentIsZip extractOk copyOk).steps
    ∧ FetchStep.openZip
        ∈ (download_latest_translations buildStatus dlStatus contentIsZip extractOk copyOk).steps
    ∧ (download_latest_translations buildStatus dlStatus contentIsZip extractOk copyOk).error
        ≠ some PyError.httpError := by
  cases contentIsZip <;> cases extractOk <;> cases copyOk <;>
    by_cases hb : 400 ≤ buildStatus <;>
      simp [download_latest_translations, hb, h]

/-- Witness for C1 (amended): at HTTP status 500 with a well-formed
archive, the error is logged, the unzip is attempted and no HTTP error
escapes. -/
theorem fetch_error_status_logged_then_unzip_attempted_witness :
    FetchStep.logError ∈ (download_latest_translations 200 500 true true true).steps
    ∧ FetchStep.openZip ∈ (download_latest_translations 200 500 true true true).steps
    ∧ (download_latest_translations 200 500 true true true).error
        ≠ some PyError.httpError :=
  fetch_error_status_logged_then_unzip_attempted 200 500 true true true (by decide)

/-- Counterexample to C6 as stated: a run in which extraction succeeds
but the per-file copy raises; the claim demands that the scratch
directory be removed on this exit path too, but the cleanup sits after
the copy with no `try/finally`, so the directory is left behind. -/
theorem fetch_scratch_dir_left_behind_counterexample :
    (download_latest_translations 200 200 true true false).error = some PyError.copyError
    ∧ (download_latest_translations 200 200 true true false).tmpExists = true := by
  decide

/-- C6 (amended): the scratch directory is absent after the call exactly
when the body was not a valid zip (the directory was never created) or
when both extraction and copy succeeded (the fall-through cleanup ran);
on the exit paths where extraction or the copy raises, the directory is
left behind. -/
theorem fetch_scratch_dir_removed_only_on_success
    (buildStatus dlStatus : Nat) (contentIsZip extractOk copyOk : Bool) :
    (download_latest_translations buildStatus dlStatus contentIsZip extractOk copyOk).tmpExists
        = false
      ↔ (contentIsZip = false ∨ (extractOk = true ∧ copyOk = true)) := by
  cases contentIsZip <;> cases extractOk <;> cases copyOk <;>
    simp [download_latest_translations]

end UpdateLanguagePacks
